import Mathlib

/-!
Shallow embedding of the email-to-entity reconciliation and status-derivation
pipeline of the backupControl repository.

Sources embedded:
* `src/backend/app/api/emails_v2.py` — `get_or_create_client`,
  `get_or_create_backup`, `create_backup_event`;
* `src/scheduler.py` and `src/backend/app/services/scheduler.py` —
  `_update_backup_statuses` (both copies are line-for-line identical on the
  status loop) and `_create_backup_event`;
* `src/backend/app/services/ai_service.py` — `AIAnalyzer.analyze_email`,
  `_parse_json_response`, `_fallback_analysis`.

Modelling conventions:
* Python `datetime` values are modelled as `Int` seconds; elapsed hours are
  seconds divided by 3600 (the Python code compares float hours against the
  integer thresholds 24/48/72, which is equivalent to comparing seconds
  against 24*3600 etc.).
* SQLAlchemy queries over a session are modelled as pure functions over a
  `Db` record holding lists of rows; `scalar_one_or_none` is modelled with an
  `Except` monad since it raises `MultipleResultsFound` on two or more rows.
* Python dicts produced by the classifier are modelled as the `Analysis`
  structure whose `Option` fields are `none` exactly when `.get` would
  return `None` (a missing key).
* The external AI oracle (spec §6) is abstracted as an `OracleResult`:
  the call raised, or returned text whose JSON extraction succeeds with a
  payload, or returned text with no decodable JSON payload.
-/

namespace BackupControl

/-- Substring test on character lists: true when `pat` occurs contiguously in
`s`. Models the Python `in` operator on strings. -/
def listContains (s pat : List Char) : Bool :=
  match s with
  | [] => pat.isEmpty
  | c :: rest => pat.isPrefixOf (c :: rest) || listContains rest pat

/-- `strContains s pat` models the Python expression `pat in s`. -/
def strContains (s pat : String) : Bool := listContains s.data pat.data

/-- Models Python `str.lower` on the alphabet the repository uses:
ASCII letters plus the accented French letters occurring in its keywords. -/
def pyLowerChar (c : Char) : Char :=
  if c = 'É' then 'é' else if c = 'È' then 'è' else if c = 'Ê' then 'ê'
  else if c = 'À' then 'à' else if c = 'Â' then 'â' else if c = 'Û' then 'û'
  else if c = 'Ù' then 'ù' else if c = 'Ô' then 'ô' else if c = 'Î' then 'î'
  else if c = 'Ï' then 'ï' else if c = 'Ç' then 'ç' else c.toLower

/-- Python `str.lower` lifted to strings. -/
def pyLower (s : String) : String := String.mk (s.data.map pyLowerChar)

/-- Models Python `str.upper` on the same alphabet as `pyLowerChar`. -/
def pyUpperChar (c : Char) : Char :=
  if c = 'é' then 'É' else if c = 'è' then 'È' else if c = 'ê' then 'Ê'
  else if c = 'à' then 'À' else if c = 'â' then 'Â' else if c = 'û' then 'Û'
  else if c = 'ù' then 'Ù' else if c = 'ô' then 'Ô' else if c = 'î' then 'Î'
  else if c = 'ï' then 'Ï' else if c = 'ç' then 'Ç' else c.toUpper

/-- Python `str.upper` lifted to strings. -/
def pyUpper (s : String) : String := String.mk (s.data.map pyUpperChar)

/-- Python truthiness for `o or d` where `o` is an optional string:
`None` and the empty string are falsy. -/
def pyOrStr (o : Option String) (d : String) : String :=
  match o with
  | none => d
  | some s => if s = "" then d else s

/-- Backup health status, from the `BackupStatus` enum in
`src/backend/app/models/backup.py`. -/
inductive BStatus
  | ok
  | warning
  | alert
  | critical
  | failed
  | unknown
deriving DecidableEq

/-- A row of the `clients` table (the fields the embedded code touches,
from `src/backend/app/models/client.py`). -/
structure Client where
  id : Nat
  name : String
  short_name : String
  nas_identifiers : List String
  is_active : Bool
deriving DecidableEq

/-- A row of the `backups` table (the fields the embedded code touches,
from `src/backend/app/models/backup.py`). Timestamps are `Int` seconds. -/
structure Backup where
  id : Nat
  client_id : Nat
  name : String
  backup_type : String
  source_nas : String
  destination_nas : Option String
  source_device : Option String
  current_status : BStatus
  last_success_at : Option Int
  last_failure_at : Option Int
  last_event_at : Option Int
  total_success_count : Nat
  total_failure_count : Nat
  is_active : Bool
  is_maintenance : Bool
  maintenance_until : Option Int
deriving DecidableEq

/-- A row of the `backup_events` table (the fields `create_backup_event`
in emails_v2.py writes). -/
structure BEvent where
  id : Nat
  backup_id : Nat
  email_id : Nat
  event_type : String
  event_date : Int
  message : String
deriving DecidableEq

/-- A row of the `emails` table as used by the event recorder. -/
structure EmailRec where
  id : Nat
  message_id : String
  subject : String
  received_at : Option Int
deriving DecidableEq

/-- A row of the `alerts` table as written by `_update_backup_statuses`. -/
structure SAlert where
  alert_type : String
  severity : BStatus
  client_id : Nat
  backup_id : Nat
  title : String
  message : String
deriving DecidableEq

/-- The classifier output dict (spec §4.1 `BackupSignal`). An `Option` field
is `none` exactly when the Python dict lacks the key, so `.get` returns
`None`. -/
structure Analysis where
  is_backup_notification : Bool := false
  notification_type : Option String := none
  backup_type : Option String := none
  status : Option String := none
  source_nas : Option String := none
  destination_nas : Option String := none
  destination : Option String := none
  task_name : Option String := none
  devices : Option (List String) := none
  error_message : Option String := none
  confidence : Nat := 0
deriving DecidableEq

/-- The persistent store visible to the embedded code: one list per table
plus fresh-id counters for autoincrement primary keys. -/
structure Db where
  clients : List Client
  backups : List Backup
  events : List BEvent
  nextClientId : Nat
  nextBackupId : Nat
  nextEventId : Nat
deriving DecidableEq

/-- The empty database. -/
def emptyDb : Db :=
  { clients := [], backups := [], events := [],
    nextClientId := 1, nextBackupId := 1, nextEventId := 1 }

/-- SQLAlchemy `Result.scalar_one_or_none`: `none` on zero rows, the row on
exactly one, and the `MultipleResultsFound` exception on two or more. -/
def scalar_one_or_none {α : Type} (l : List α) : Except String (Option α) :=
  match l with
  | [] => Except.ok none
  | [a] => Except.ok (some a)
  | _ => Except.error "MultipleResultsFound"

/-- The client-prefix extraction of `get_or_create_client`
(emails_v2.py line 279): Python
`re.match(r'^(N[A-Z]{2,4})\d*', nas_identifier.upper())`, taking
`group(1)` on a match and the raw upper-cased identifier otherwise.
The greedy `[A-Z]{2,4}` takes up to four following ASCII uppercase
letters and needs at least two; `\d*` always matches, so the regex
succeeds exactly when the uppercased identifier starts with `N` followed
by at least two uppercase letters. -/
def clientCodeFrom (nas_identifier : String) : String :=
  let s := pyUpper nas_identifier
  match s.data with
  | 'N' :: rest =>
      let letters := (rest.takeWhile Char.isUpper).take 4
      if 2 ≤ letters.length then String.mk ('N' :: letters) else s
  | _ => s

/-- `get_or_create_client` (emails_v2.py lines 271–315). Looks up a client
by `short_name` equal to the extracted prefix, then by the uppercased
identifier being recorded in `nas_identifiers` (the Python code runs a
quote-delimited `ilike` over the JSON rendering of the uppercase-string
array, which coincides with list membership), appends the identifier to a
found client when missing, and otherwise inserts a fresh client. Returns
the updated store, the client row and the created flag. -/
def get_or_create_client (db : Db) (nas_identifier : String) :
    Except String (Db × Client × Bool) := do
  let clientCode := clientCodeFrom nas_identifier
  let nasUp := pyUpper nas_identifier
  let byShort ←
    scalar_one_or_none (db.clients.filter (fun c => c.short_name == clientCode))
  let found ←
    match byShort with
    | some c => pure (some c)
    | none =>
        scalar_one_or_none
          (db.clients.filter (fun c => c.nas_identifiers.contains nasUp))
  match found with
  | some c =>
      let c2 := if c.nas_identifiers.contains nasUp then c
        else { c with nas_identifiers := c.nas_identifiers ++ [nasUp] }
      pure ({ db with clients :=
                db.clients.map (fun x => if x.id == c2.id then c2 else x) },
            c2, false)
  | none =>
      let c : Client :=
        { id := db.nextClientId, name := "Client " ++ clientCode,
          short_name := clientCode, nas_identifiers := [nasUp],
          is_active := true }
      pure ({ db with
                clients := db.clients ++ [c],
                nextClientId := db.nextClientId + 1 }, c, true)

/-- The SQLAlchemy filter built in `get_or_create_backup`
(emails_v2.py lines 340–352): same client, source NAS and backup type,
and, when a task name is present, the exact built name or a
case-insensitive substring match on the task name. -/
def backup_query_filter (client : Client)
    (source_nas backup_type task_name backup_name : String)
    (b : Backup) : Bool :=
  b.client_id == client.id && b.source_nas == source_nas &&
    b.backup_type == backup_type &&
    (task_name == "" ||
      (b.name == backup_name ||
        strContains (pyLower b.name) (pyLower task_name)))

/-- The candidate backup name built in `get_or_create_backup`
(emails_v2.py lines 332–337): task name, or the first three devices for
Active Backup, or the bare type, each qualified by the source NAS. -/
def backupNameFor (a : Analysis) : String :=
  let source_nas := pyUpper (pyOrStr a.source_nas "UNKNOWN")
  let backup_type := pyOrStr a.backup_type "other"
  let task_name := pyOrStr a.task_name ""
  let devices := a.devices.getD []
  if task_name ≠ "" then source_nas ++ " - " ++ task_name
  else if backup_type == "active_backup" && !devices.isEmpty then
    source_nas ++ " - Active Backup - " ++
      String.intercalate ", " (devices.take 3)
  else source_nas ++ " - " ++ backup_type

/-- `get_or_create_backup` (emails_v2.py lines 318–374). Builds the
candidate name with `backupNameFor`; queries with `backup_query_filter`
through `scalar_one_or_none`; reuses a unique match and inserts a fresh
backup with status `unknown` otherwise. -/
def get_or_create_backup (db : Db) (client : Client) (a : Analysis) :
    Except String (Db × Backup × Bool) := do
  let source_nas := pyUpper (pyOrStr a.source_nas "UNKNOWN")
  let backup_type := pyOrStr a.backup_type "other"
  let task_name := pyOrStr a.task_name ""
  let destination_nas := pyOrStr a.destination_nas ""
  let devices := a.devices.getD []
  let backup_name := backupNameFor a
  let found ← scalar_one_or_none (db.backups.filter
    (backup_query_filter client source_nas backup_type task_name backup_name))
  match found with
  | some b => pure (db, b, false)
  | none =>
      let b : Backup :=
        { id := db.nextBackupId, client_id := client.id, name := backup_name,
          backup_type := backup_type, source_nas := source_nas,
          destination_nas :=
            if destination_nas ≠ "" then some (pyUpper destination_nas)
            else none,
          source_device :=
            if devices.isEmpty then none
            else some (String.intercalate ", " devices),
          current_status := BStatus.unknown,
          last_success_at := none, last_failure_at := none,
          last_event_at := none,
          total_success_count := 0, total_failure_count := 0,
          is_active := true, is_maintenance := false,
          maintenance_until := none }
      pure ({ db with
                backups := db.backups ++ [b],
                nextBackupId := db.nextBackupId + 1 }, b, true)

/-- The resolution step of the `fetch-and-analyze` loop
(emails_v2.py lines 574–585): only signals that are backup notifications
with a truthy `source_nas` are resolved; the result is `none` when the
signal is skipped. -/
def process_signal (db : Db) (a : Analysis) :
    Except String (Option (Db × Client × Bool × Backup × Bool)) :=
  match a.source_nas with
  | some nas =>
      if a.is_backup_notification ∧ nas ≠ "" then do
        let (db1, client, clientNew) ← get_or_create_client db nas
        let (db2, backup, backupNew) ← get_or_create_backup db1 client a
        pure (some (db2, client, clientNew, backup, backupNew))
      else pure none
  | none => pure none

/-- `create_backup_event` (emails_v2.py lines 377–420). Derives the event
type from the signal status, returns the existing event untouched when one
already exists for `(backup.id, email.id)`, and otherwise inserts the event
and mutates the parent backup: success and failure bump their timestamp,
counter and status, and `last_event_at` is assigned the email received
time unconditionally. `now` stands for `datetime.utcnow()` used as the
`event_date` fallback. -/
def create_backup_event (db : Db) (backup : Backup) (email : EmailRec)
    (a : Analysis) (now : Int) : Except String (Db × Backup × BEvent × Bool) := do
  let status := pyOrStr a.status "unknown"
  let event_type :=
    if status == "success" || status == "failure" || status == "warning" then
      status
    else "unknown"
  let existing ←
    scalar_one_or_none (db.events.filter
      (fun e => e.backup_id == backup.id && e.email_id == email.id))
  match existing with
  | some e => pure (db, backup, e, false)
  | none =>
      let event : BEvent :=
        { id := db.nextEventId, backup_id := backup.id, email_id := email.id,
          event_type := event_type, event_date := email.received_at.getD now,
          message := email.subject }
      let b1 :=
        if event_type == "success" then
          { backup with
              last_success_at := email.received_at,
              total_success_count := backup.total_success_count + 1,
              current_status := BStatus.ok }
        else if event_type == "failure" then
          { backup with
              last_failure_at := email.received_at,
              total_failure_count := backup.total_failure_count + 1,
              current_status := BStatus.failed }
        else backup
      let b2 := { b1 with last_event_at := email.received_at }
      pure ({ db with
                events := db.events ++ [event],
                backups := db.backups.map
                  (fun x => if x.id == b2.id then b2 else x),
                nextEventId := db.nextEventId + 1 }, b2, event, true)

/-- The backup-resolution part of `_create_backup_event` in
`src/backend/app/services/scheduler.py` (lines 140–167): first an exact
(source NAS, task name) query through `scalar_one_or_none`, then a query by
source NAS alone whose result is used only when it has exactly one row.
`Except.ok none` models the `logger.warning` path that returns without
creating an event, dropping the signal. -/
def scheduler_find_backup (backups : List Backup)
    (source_nas task_name : Option String) : Except String (Option Backup) := do
  let first ←
    match source_nas, task_name with
    | some s, some t =>
        if s ≠ "" ∧ t ≠ "" then
          scalar_one_or_none
            (backups.filter (fun b => b.source_nas == s && b.name == t))
        else pure none
    | _, _ => pure none
  match first with
  | some b => pure (some b)
  | none =>
      match source_nas with
      | some s =>
          if s ≠ "" then
            let byNas := backups.filter (fun b => b.source_nas == s)
            pure (if byNas.length == 1 then byNas.head? else none)
          else pure none
      | none => pure none

/-- The parent-backup mutation of `_create_backup_event` in
`src/backend/app/services/scheduler.py` (lines 186–197): success and
failure update their timestamp, counter and status; `last_event_at` is
assigned the email received time unconditionally. -/
def scheduler_apply_event (backup : Backup) (event_type : String)
    (received_at : Option Int) : Backup :=
  let b1 :=
    if event_type == "success" then
      { backup with
          last_success_at := received_at,
          total_success_count := backup.total_success_count + 1,
          current_status := BStatus.ok }
    else if event_type == "failure" then
      { backup with
          last_failure_at := received_at,
          total_failure_count := backup.total_failure_count + 1,
          current_status := BStatus.failed }
    else backup
  { b1 with last_event_at := received_at }

/-- The clock thresholds of `_update_backup_statuses`
(`src/scheduler.py` lines 487–494 and the identical
`src/backend/app/services/scheduler.py` lines 233–240), on elapsed
seconds: the Python code compares `elapsed/3600` as a float against
24, 48 and 72, which on integer seconds is equivalent to these
comparisons. -/
def clockStatus (elapsed : Int) : BStatus :=
  if elapsed ≤ 24 * 3600 then BStatus.ok
  else if elapsed ≤ 48 * 3600 then BStatus.warning
  else if elapsed ≤ 72 * 3600 then BStatus.alert
  else BStatus.critical

/-- `int(hours_since_success)`: Python float-to-int truncation toward
zero, on integer seconds. -/
def elapsedHoursInt (elapsed : Int) : Int := Int.tdiv elapsed 3600

/-- Loop body of `_update_backup_statuses` for one selected backup
(`src/scheduler.py` lines 474–508, identical in
`src/backend/app/services/scheduler.py` lines 220–254): maintenance rows
are skipped unchanged, a null `last_success_at` forces `unknown`, else
the clock status is assigned; an alert row is added exactly when the
status changed and the new status is alert or critical. -/
def updateOneBackup (b : Backup) (now : Int) : Backup × Option SAlert :=
  if b.is_maintenance then (b, none)
  else
    match b.last_success_at with
    | none => ({ b with current_status := BStatus.unknown }, none)
    | some t =>
        let elapsed := now - t
        let newStatus := clockStatus elapsed
        let b1 := { b with current_status := newStatus }
        if b.current_status ≠ newStatus ∧
            (newStatus = BStatus.alert ∨ newStatus = BStatus.critical) then
          (b1, some
            { alert_type := "backup_missing", severity := newStatus,
              client_id := b.client_id, backup_id := b.id,
              title := "Sauvegarde manquante: " ++ b.name,
              message := "Aucune sauvegarde réussie depuis " ++
                toString (elapsedHoursInt elapsed) ++ "h" })
        else (b1, none)

/-- The full pass of `_update_backup_statuses`: the query selects the rows
with `is_active`, each selected row goes through `updateOneBackup`, and
the produced alert rows are collected. -/
def update_backup_statuses (backups : List Backup) (now : Int) :
    List Backup × List SAlert :=
  let pairs := backups.map
    (fun b => if b.is_active then updateOneBackup b now else (b, none))
  (pairs.map Prod.fst, pairs.filterMap Prod.snd)

/-- A fetched email as passed to `AIAnalyzer.analyze_email`
(`EmailMessage` in `src/backend/app/services/email_service.py`). -/
structure EmailMessage where
  message_id : String
  subject : String
  sender : String
  body_text : String
deriving DecidableEq

/-- Success keywords of `_fallback_analysis` (ai_service.py line 193). -/
def successKeywords : List String :=
  ["réussi", "succès", "success", "terminée", "effectuée"]

/-- Failure keywords of `_fallback_analysis` (ai_service.py line 195). -/
def failureKeywords : List String :=
  ["échoué", "échec", "failed", "erreur", "error"]

/-- `any(kw in subject or kw in body for kw in kws)`. -/
def kwHit (subject body : String) (kws : List String) : Bool :=
  kws.any (fun kw => strContains subject kw || strContains body kw)

/-- Python regex `\w` restricted to the modelled alphabet: ASCII letters
and digits, underscore, and the accented French letters. -/
def isWordChar (c : Char) : Bool :=
  c.isAlpha || c.isDigit || c == '_' ||
    "éèêàâûùôîïçÉÈÊÀÂÛÙÔÎÏÇ".data.contains c

/-- For the regex `\b(N[A-Z]{2,4}\d{1,2})\b` with `re.IGNORECASE`: the
`\d{1,2}` part, tried greedily (two digits, then one) and followed by the
closing word boundary. Returns the digit count consumed. -/
def nasTryDigits (remaining : List Char) : Option Nat :=
  let d := (remaining.takeWhile Char.isDigit).length
  let boundaryAfter := fun (k : Nat) =>
    match remaining.drop k with
    | [] => true
    | c :: _ => !isWordChar c
  if 2 ≤ d && boundaryAfter 2 then some 2
  else if 1 ≤ d && boundaryAfter 1 then some 1
  else none

/-- The `[A-Z]{2,4}` part under `re.IGNORECASE` (any ASCII letter), tried
greedily from four letters down to two, each followed by the digit part.
Returns the (letters, digits) counts consumed. -/
def nasTryLetters (rest : List Char) : Option (Nat × Nat) :=
  let r := (rest.takeWhile Char.isAlpha).length
  let attempt := fun (l : Nat) =>
    if l ≤ r then (nasTryDigits (rest.drop l)).map (fun d => (l, d)) else none
  (attempt 4).orElse (fun _ => (attempt 3).orElse (fun _ => attempt 2))

/-- One anchoring position of the NAS regex: the opening word boundary
(`prev` is the character before the position), the literal `N` or `n`,
then letters and digits. Returns the matched characters. -/
def nasMatchHere (prev : Option Char) (cs : List Char) : Option (List Char) :=
  let boundaryBefore :=
    match prev with
    | none => true
    | some p => !isWordChar p
  match cs with
  | [] => none
  | c :: rest =>
      if boundaryBefore && (c == 'N' || c == 'n') then
        match nasTryLetters rest with
        | some (l, d) => some (c :: (rest.take l ++ (rest.drop l).take d))
        | none => none
      else none

/-- `re.search` of the NAS pattern: leftmost anchoring position wins. -/
def searchNas (prev : Option Char) (cs : List Char) : Option (List Char) :=
  match cs with
  | [] => none
  | c :: rest =>
      match nasMatchHere prev (c :: rest) with
      | some m => some m
      | none => searchNas (some c) rest

/-- `AIAnalyzer._fallback_analysis` (ai_service.py lines 157–203): the
deterministic keyword classifier used when the oracle call raises. The
subject and body are lowercased, fixed keyword lists drive the
notification type, backup type and status (success keywords checked
before failure keywords), the source NAS is extracted with the regex
`\b(N[A-Z]{2,4}\d{1,2})\b` (IGNORECASE) over the original subject and
body, and the confidence is the fixed 30. -/
def fallback_analysis (email : EmailMessage) : Analysis :=
  let subject := pyLower email.subject
  let body := pyLower email.body_text
  let (isNotif, ntype) :=
    if kwHit subject body ["backup", "sauvegarde", "hyper backup", "active backup"] then
      (true, "backup")
    else if strContains subject "sécurité" || strContains subject "security" then
      (false, "security")
    else if strContains subject "mise à jour" || strContains subject "update" then
      (false, "update")
    else if strContains subject "onduleur" || strContains subject "ups" then
      (false, "ups")
    else (false, "other")
  let btype :=
    if strContains body "hyper backup" || strContains body "network backup" then
      some "hyper_backup"
    else if strContains body "active backup for business" then
      some "active_backup"
    else if strContains subject "rsync" || strContains body "rsync" then
      some "rsync"
    else none
  let status :=
    if kwHit subject body successKeywords then some "success"
    else if kwHit subject body failureKeywords then some "failure"
    else none
  { is_backup_notification := isNotif, notification_type := some ntype,
    backup_type := btype, status := status,
    source_nas := (searchNas none (email.subject ++ " " ++ email.body_text).data).map
      (fun m => pyUpper (String.mk m)),
    task_name := none, destination := none, confidence := 30 }

/-- The dict `_parse_json_response` returns when no JSON payload can be
decoded from the oracle text (ai_service.py lines 148–155): the
`JSONDecodeError` is caught inside the parser, so this result — not the
keyword fallback — is what `analyze_email` returns for unparsable
output. Keys absent from the literal dict are `none`. -/
def parse_error_result (errMsg : String) : Analysis :=
  { is_backup_notification := false, notification_type := some "other",
    error_message := some ("Erreur de parsing: " ++ errMsg),
    confidence := 0 }

/-- The external AI oracle (spec §6) abstracted by its observable outcome:
the provider call raised, or returned text from which `_parse_json_response`
decodes a payload, or returned text with no decodable JSON payload. -/
inductive OracleResult
  | raised : String → OracleResult
  | parsed : Analysis → OracleResult
  | unparsable : String → OracleResult

/-- `AIAnalyzer.analyze_email` (ai_service.py lines 70–95): the provider
call and JSON extraction run inside a `try` whose `except` falls back to
`_fallback_analysis`; a `JSONDecodeError` is already caught inside
`_parse_json_response`, so only a raising provider call reaches the
keyword fallback. The function is total: it never raises to the caller. -/
def analyze_email (email : EmailMessage) (oracle : OracleResult) : Analysis :=
  match oracle with
  | OracleResult.parsed a => a
  | OracleResult.unparsable e => parse_error_result e
  | OracleResult.raised _ => fallback_analysis email

/-! ### Helper lemmas -/

/-- A two-or-more-element list makes `scalar_one_or_none` raise
`MultipleResultsFound`. -/
theorem scalar_one_or_none_multiple {α : Type} (l : List α) (h : 2 ≤ l.length) :
    scalar_one_or_none l = Except.error "MultipleResultsFound" := by
  match l with
  | [] => simp at h
  | [a] => simp at h
  | a :: b :: rest => rfl

/-- On a maintenance row the status loop body changes nothing and adds no
alert. -/
theorem updateOneBackup_maintenance (b : Backup) (now : Int)
    (h : b.is_maintenance = true) : updateOneBackup b now = (b, none) := by
  simp [updateOneBackup, h]

/-- With a recorded last success, the loop body assigns the clock status. -/
theorem updateOneBackup_status (b : Backup) (now t : Int)
    (hm : b.is_maintenance = false) (h : b.last_success_at = some t) :
    (updateOneBackup b now).1.current_status = clockStatus (now - t) := by
  simp only [updateOneBackup, hm, Bool.false_eq_true, if_false, h]
  split <;> rfl

/-- With no recorded last success, the loop body assigns `unknown`. -/
theorem updateOneBackup_unknown (b : Backup) (now : Int)
    (hm : b.is_maintenance = false) (h : b.last_success_at = none) :
    updateOneBackup b now = ({ b with current_status := BStatus.unknown }, none) := by
  simp [updateOneBackup, hm, h]

/-- Full characterization of the loop body on a non-maintenance backup with
a recorded last success: the clock status is assigned, and the alert is
emitted under exactly the code's escalation condition. -/
theorem updateOneBackup_some_eq (b : Backup) (now t : Int)
    (hm : b.is_maintenance = false) (h : b.last_success_at = some t) :
    updateOneBackup b now =
      ({ b with current_status := clockStatus (now - t) },
       if b.current_status ≠ clockStatus (now - t) ∧
          (clockStatus (now - t) = BStatus.alert ∨
            clockStatus (now - t) = BStatus.critical) then
         some
           { alert_type := "backup_missing",
             severity := clockStatus (now - t),
             client_id := b.client_id, backup_id := b.id,
             title := "Sauvegarde manquante: " ++ b.name,
             message := "Aucune sauvegarde réussie depuis " ++
               toString (elapsedHoursInt (now - t)) ++ "h" }
       else none) := by
  simp only [updateOneBackup, hm, Bool.false_eq_true, if_false, h]
  split
  next => rfl
  next => rfl

theorem clockStatus_ok {e : Int} (h : e ≤ 24 * 3600) :
    clockStatus e = BStatus.ok := by
  unfold clockStatus
  rw [if_pos h]

theorem clockStatus_warning {e : Int} (h1 : 24 * 3600 < e) (h2 : e ≤ 48 * 3600) :
    clockStatus e = BStatus.warning := by
  unfold clockStatus
  rw [if_neg (by omega), if_pos h2]

theorem clockStatus_alert {e : Int} (h1 : 48 * 3600 < e) (h2 : e ≤ 72 * 3600) :
    clockStatus e = BStatus.alert := by
  unfold clockStatus
  rw [if_neg (by omega), if_neg (by omega), if_pos h2]

theorem clockStatus_critical {e : Int} (h1 : 72 * 3600 < e) :
    clockStatus e = BStatus.critical := by
  unfold clockStatus
  rw [if_neg (by omega), if_neg (by omega), if_neg (by omega)]

/-- The clock never produces the event-driven `failed` state. -/
theorem clockStatus_ne_failed (e : Int) : clockStatus e ≠ BStatus.failed := by
  unfold clockStatus
  split
  case isTrue => simp
  case isFalse => split <;> [simp; skip]; split <;> simp

/-! ### C1 — entity auto-creation is deterministic and idempotent -/

/-- The C1 signal: `source_identifier="NABO03"`, `backup_type="hyper_backup"`,
`task_name="Daily"`. -/
def sigC1 : Analysis :=
  { is_backup_notification := true, backup_type := some "hyper_backup",
    status := some "success", source_nas := some "NABO03",
    task_name := some "Daily", confidence := 95 }

/-- The client that resolution creates for the C1 signal. -/
def clientC1 : Client :=
  { id := 1, name := "Client NABO", short_name := "NABO",
    nas_identifiers := ["NABO03"], is_active := true }

/-- The backup that resolution creates for the C1 signal. -/
def backupC1 : Backup :=
  { id := 1, client_id := 1, name := "NABO03 - Daily",
    backup_type := "hyper_backup", source_nas := "NABO03",
    destination_nas := none, source_device := none,
    current_status := BStatus.unknown,
    last_success_at := none, last_failure_at := none, last_event_at := none,
    total_success_count := 0, total_failure_count := 0,
    is_active := true, is_maintenance := false, maintenance_until := none }

/-- The store after the first C1 resolution. -/
def dbC1 : Db :=
  { clients := [clientC1], backups := [backupC1], events := [],
    nextClientId := 2, nextBackupId := 2, nextEventId := 1 }

/-- C1: for the signal (`NABO03`, `hyper_backup`, `Daily`) on an empty store,
the prefix `NABO` is extracted (the raw upper-cased identifier would be used
on a non-match), exactly one client with `short_name = "NABO"` and
`nas_identifiers` containing `"NABO03"` and one backup whose name includes
`"Daily"` are created, and a second identical signal resolves to the same
client and backup, creating nothing new and leaving the store unchanged. -/
theorem entity_auto_creation_idempotent :
    clientCodeFrom "NABO03" = "NABO" ∧
    clientCodeFrom "XY12" = pyUpper "XY12" ∧
    clientCodeFrom "na1" = pyUpper "na1" ∧
    process_signal emptyDb sigC1 =
      Except.ok (some (dbC1, clientC1, true, backupC1, true)) ∧
    clientC1.short_name = "NABO" ∧
    clientC1.nas_identifiers.contains "NABO03" = true ∧
    strContains backupC1.name "Daily" = true ∧
    dbC1.clients = [clientC1] ∧
    dbC1.backups = [backupC1] ∧
    process_signal dbC1 sigC1 =
      Except.ok (some (dbC1, clientC1, false, backupC1, false)) :=
  ⟨rfl, rfl, rfl, rfl, rfl, rfl, rfl, rfl, rfl, rfl⟩

/-! ### C2 — clock-based status recomputation thresholds -/

/-- C2: for an active, non-maintenance backup, recomputation is the pure
threshold function of elapsed time since last success: a null
`last_success_at` yields `unknown`; with `last_success_at = T` the status at
`now` is `ok` for elapsed ≤ 24h, `warning` for 24h < elapsed ≤ 48h, `alert`
for 48h < elapsed ≤ 72h, `critical` beyond 72h; in particular `T+23h`,
`T+30h`, `T+50h` and `T+100h` give `ok`, `warning`, `alert`, `critical`. -/
theorem status_threshold_function (b : Backup) (now T : Int)
    (hact : b.is_active = true) (hm : b.is_maintenance = false) :
    (b.last_success_at = none →
      (updateOneBackup b now).1.current_status = BStatus.unknown) ∧
    (b.last_success_at = some T →
      ((now - T ≤ 24 * 3600 →
          (updateOneBackup b now).1.current_status = BStatus.ok) ∧
       (24 * 3600 < now - T → now - T ≤ 48 * 3600 →
          (updateOneBackup b now).1.current_status = BStatus.warning) ∧
       (48 * 3600 < now - T → now - T ≤ 72 * 3600 →
          (updateOneBackup b now).1.current_status = BStatus.alert) ∧
       (72 * 3600 < now - T →
          (updateOneBackup b now).1.current_status = BStatus.critical) ∧
       (updateOneBackup b (T + 23 * 3600)).1.current_status = BStatus.ok ∧
       (updateOneBackup b (T + 30 * 3600)).1.current_status = BStatus.warning ∧
       (updateOneBackup b (T + 50 * 3600)).1.current_status = BStatus.alert ∧
       (updateOneBackup b (T + 100 * 3600)).1.current_status = BStatus.critical)) := by
  constructor
  · intro h
    rw [updateOneBackup_unknown b now hm h]
  · intro h
    have key : ∀ n : Int, (updateOneBackup b n).1.current_status = clockStatus (n - T) :=
      fun n => updateOneBackup_status b n T hm h
    refine ⟨?_, ?_, ?_, ?_, ?_, ?_, ?_, ?_⟩
    · intro h1; rw [key, clockStatus_ok h1]
    · intro h1 h2; rw [key, clockStatus_warning h1 h2]
    · intro h1 h2; rw [key, clockStatus_alert h1 h2]
    · intro h1; rw [key, clockStatus_critical h1]
    · rw [key, clockStatus_ok (by omega)]
    · rw [key, clockStatus_warning (by omega) (by omega)]
    · rw [key, clockStatus_alert (by omega) (by omega)]
    · rw [key, clockStatus_critical (by omega)]

/-- A concrete active, non-maintenance backup with `last_success_at = 0`. -/
def backupC2 : Backup :=
  { id := 7, client_id := 3, name := "NABO03 - Daily",
    backup_type := "hyper_backup", source_nas := "NABO03",
    destination_nas := none, source_device := none,
    current_status := BStatus.ok, last_success_at := some 0,
    last_failure_at := none, last_event_at := none,
    total_success_count := 5, total_failure_count := 1,
    is_active := true, is_maintenance := false, maintenance_until := none }

/-- Witness for C2 at `T = 0` on `backupC2`. -/
theorem status_threshold_function_witness :
    (updateOneBackup backupC2 (23 * 3600)).1.current_status = BStatus.ok ∧
    (updateOneBackup backupC2 (30 * 3600)).1.current_status = BStatus.warning ∧
    (updateOneBackup backupC2 (50 * 3600)).1.current_status = BStatus.alert ∧
    (updateOneBackup backupC2 (100 * 3600)).1.current_status = BStatus.critical := by
  have h := (status_threshold_function backupC2 0 0 rfl rfl).2 rfl
  exact ⟨h.2.2.2.2.1, h.2.2.2.2.2.1, h.2.2.2.2.2.2.1, h.2.2.2.2.2.2.2⟩

/-! ### C3 — the failed status is not protected from the clock rules -/

/-- A backup left in `failed` by a failure event, whose `last_success_at`
still records a success two hours before `now`. -/
def backupC3 : Backup :=
  { id := 7, client_id := 3, name := "NABO03 - Daily",
    backup_type := "hyper_backup", source_nas := "NABO03",
    destination_nas := none, source_device := none,
    current_status := BStatus.failed, last_success_at := some 0,
    last_failure_at := some 3600, last_event_at := some 3600,
    total_success_count := 5, total_failure_count := 1,
    is_active := true, is_maintenance := false, maintenance_until := none }

/-- C3 counterexample: an active backup in `failed` with a pre-failure
`last_success_at` is recomputed to the clock status `ok` at `T+2h` with no
intervening success, so the hourly recomputation does replace `failed` with
a clock-based status. -/
theorem failed_status_overwritten_counterexample :
    backupC3.current_status = BStatus.failed ∧
    backupC3.is_active = true ∧
    backupC3.is_maintenance = false ∧
    (updateOneBackup backupC3 (2 * 3600)).1.current_status = BStatus.ok ∧
    BStatus.ok ≠ BStatus.failed :=
  ⟨rfl, rfl, rfl, rfl, by decide⟩

/-- C3 amended: the recomputation loop never consults `current_status`
before overwriting it — for a non-maintenance backup in `failed`, a non-null
`last_success_at` (which a failure event does not clear) is replaced by the
clock status at the next hourly run, and a null one by `unknown`; `failed`
is never produced by the clock. -/
theorem failed_status_overwritten (b : Backup) (now T : Int)
    (hf : b.current_status = BStatus.failed) (hm : b.is_maintenance = false) :
    (b.last_success_at = some T →
      (updateOneBackup b now).1.current_status = clockStatus (now - T)) ∧
    (b.last_success_at = none →
      (updateOneBackup b now).1.current_status = BStatus.unknown) ∧
    (∀ e : Int, clockStatus e ≠ BStatus.failed) := by
  refine ⟨?_, ?_, clockStatus_ne_failed⟩
  · intro h
    exact updateOneBackup_status b now T hm h
  · intro h
    rw [updateOneBackup_unknown b now hm h]

/-- Witness for the amended C3 on `backupC3` at `now = 2h`. -/
theorem failed_status_overwritten_witness :
    (updateOneBackup backupC3 (2 * 3600)).1.current_status =
      clockStatus (2 * 3600 - 0) :=
  (failed_status_overwritten backupC3 (2 * 3600) 0 rfl rfl).1 rfl

/-! ### C4 — event recording is idempotent on (backup.id, email.id) -/

/-- C4: when an event already exists for the `(backup.id, email.id)` pair,
`create_backup_event` returns that event with `created = false`, adds no
row, and leaves the parent backup — counters, timestamps and status —
exactly as it was. -/
theorem event_recording_idempotent (db : Db) (backup : Backup)
    (email : EmailRec) (a : Analysis) (now : Int) (ev0 : BEvent)
    (hex : db.events.filter
      (fun e => e.backup_id == backup.id && e.email_id == email.id) = [ev0]) :
    create_backup_event db backup email a now =
      Except.ok (db, backup, ev0, false) := by
  unfold create_backup_event
  rw [hex]
  rfl

/-- Concrete data for the C4 witness: one already-recorded event. -/
def eventC4 : BEvent :=
  { id := 1, backup_id := 7, email_id := 9, event_type := "success",
    event_date := 100, message := "Hyper Backup - NABO03" }

/-- The email whose event is already recorded. -/
def emailC4 : EmailRec :=
  { id := 9, message_id := "msg-9", subject := "Hyper Backup - NABO03",
    received_at := some 100 }

/-- Store already holding `eventC4`. -/
def dbC4 : Db :=
  { clients := [], backups := [backupC2], events := [eventC4],
    nextClientId := 2, nextBackupId := 8, nextEventId := 2 }

/-- Witness for C4: replaying the same email against the same backup
returns the stored event, `created = false`, and an untouched store. -/
theorem event_recording_idempotent_witness :
    create_backup_event dbC4 backupC2 emailC4 sigC1 200 =
      Except.ok (dbC4, backupC2, eventC4, false) :=
  event_recording_idempotent dbC4 backupC2 emailC4 sigC1 200 eventC4 rfl

/-! ### C5 — ambiguous backup matches are dropped or raise, never picked -/

/-- A client owning two ambiguous backups. -/
def clientC5 : Client :=
  { id := 1, name := "Client NABO", short_name := "NABO",
    nas_identifiers := ["NABO03"], is_active := true }

/-- First ambiguous candidate. -/
def backupC5a : Backup :=
  { id := 1, client_id := 1, name := "NABO03 - hyper_backup",
    backup_type := "hyper_backup", source_nas := "NABO03",
    destination_nas := none, source_device := none,
    current_status := BStatus.ok, last_success_at := some 0,
    last_failure_at := none, last_event_at := some 0,
    total_success_count := 3, total_failure_count := 0,
    is_active := true, is_maintenance := false, maintenance_until := none }

/-- Second ambiguous candidate: same client, source NAS and type. -/
def backupC5b : Backup :=
  { id := 2, client_id := 1, name := "NABO03 - Daily",
    backup_type := "hyper_backup", source_nas := "NABO03",
    destination_nas := none, source_device := none,
    current_status := BStatus.warning, last_success_at := some 100,
    last_failure_at := none, last_event_at := some 100,
    total_success_count := 5, total_failure_count := 1,
    is_active := true, is_maintenance := false, maintenance_until := none }

/-- Store holding both ambiguous candidates. -/
def dbC5 : Db :=
  { clients := [clientC5], backups := [backupC5a, backupC5b], events := [],
    nextClientId := 2, nextBackupId := 3, nextEventId := 1 }

/-- The C5 signal: matches both candidates (no task name, so no name
filter applies). -/
def sigC5 : Analysis :=
  { is_backup_notification := true, backup_type := some "hyper_backup",
    status := some "success", source_nas := some "NABO03",
    confidence := 90 }

/-- C5 counterexample: with two backups matching the signal ambiguously,
`get_or_create_backup` (emails_v2) raises `MultipleResultsFound` — an
error, not a logged warning — and the scheduler's event path resolves to
no backup at all, dropping the signal; neither picks a single candidate. -/
theorem ambiguous_resolution_counterexample :
    get_or_create_backup dbC5 clientC5 sigC5 =
      Except.error "MultipleResultsFound" ∧
    scheduler_find_backup [backupC5a, backupC5b] (some "NABO03") none =
      Except.ok none :=
  ⟨rfl, rfl⟩

/-- C5 amended: ambiguity never forks the job into a duplicate, but no
deterministic candidate is picked either — whenever two or more backups
match, the emails_v2 path raises `MultipleResultsFound` (caught by the
per-email handler as an error) and the scheduler path returns no backup,
dropping the signal with only a logged warning. -/
theorem ambiguous_resolution_drops_or_errors (db : Db) (c : Client)
    (a : Analysis) (backups : List Backup) (s : String) :
    (s ≠ "" →
      2 ≤ (backups.filter (fun b => b.source_nas == s)).length →
      scheduler_find_backup backups (some s) none = Except.ok none) ∧
    (2 ≤ (db.backups.filter (backup_query_filter c
        (pyUpper (pyOrStr a.source_nas "UNKNOWN")) (pyOrStr a.backup_type "other")
        (pyOrStr a.task_name "")
        (backupNameFor a))).length →
      get_or_create_backup db c a = Except.error "MultipleResultsFound") := by
  constructor
  · intro hs h2
    have hne : ((backups.filter (fun b => b.source_nas == s)).length == 1) = false := by
      simp only [beq_eq_false_iff_ne]
      omega
    have step : scheduler_find_backup backups (some s) none =
        if s ≠ "" then
          pure (if (backups.filter (fun b => b.source_nas == s)).length == 1
            then (backups.filter (fun b => b.source_nas == s)).head? else none)
        else pure none := rfl
    rw [step, if_pos hs, hne]
    rfl
  · intro h2
    have herr := scalar_one_or_none_multiple _ h2
    show Except.bind (scalar_one_or_none (db.backups.filter (backup_query_filter c
      (pyUpper (pyOrStr a.source_nas "UNKNOWN")) (pyOrStr a.backup_type "other")
      (pyOrStr a.task_name "") (backupNameFor a)))) _ =
        Except.error "MultipleResultsFound"
    rw [herr]
    rfl

/-- Witness for the amended C5 on the two-candidate store. -/
theorem ambiguous_resolution_drops_or_errors_witness :
    scheduler_find_backup [backupC5a, backupC5b] (some "NABO03") none =
      Except.ok none ∧
    get_or_create_backup dbC5 clientC5 sigC5 =
      Except.error "MultipleResultsFound" :=
  ⟨(ambiguous_resolution_drops_or_errors dbC5 clientC5 sigC5
      [backupC5a, backupC5b] "NABO03").1 (by decide) (by decide),
   (ambiguous_resolution_drops_or_errors dbC5 clientC5 sigC5
      [backupC5a, backupC5b] "NABO03").2 (by decide)⟩

/-! ### C6 — alerts only on escalating transitions -/

/-- C6: recomputation adds an alert exactly when the new status is `alert`
or `critical` and differs from the previous one; a null `last_success_at`
never alerts; an emitted alert's severity equals the new status; running
the recomputation twice in a row without an intervening change never adds
a second alert; and a `warning → alert` transition adds exactly the one
alert whose message spells out the elapsed hours. -/
theorem alert_escalation_only (b : Backup) (now T : Int)
    (hm : b.is_maintenance = false) :
    (b.last_success_at = none → (updateOneBackup b now).2 = none) ∧
    (b.last_success_at = some T →
      (((updateOneBackup b now).2).isSome = true ↔
        (b.current_status ≠ clockStatus (now - T) ∧
         (clockStatus (now - T) = BStatus.alert ∨
          clockStatus (now - T) = BStatus.critical)))) ∧
    (∀ al, (updateOneBackup b now).2 = some al →
      al.severity = (updateOneBackup b now).1.current_status) ∧
    (updateOneBackup (updateOneBackup b now).1 now).2 = none ∧
    (b.last_success_at = some T → b.current_status = BStatus.warning →
      48 * 3600 < now - T → now - T ≤ 72 * 3600 →
      (updateOneBackup b now).2 = some
        { alert_type := "backup_missing", severity := BStatus.alert,
          client_id := b.client_id, backup_id := b.id,
          title := "Sauvegarde manquante: " ++ b.name,
          message := "Aucune sauvegarde réussie depuis " ++
            toString (elapsedHoursInt (now - T)) ++ "h" }) := by
  refine ⟨?_, ?_, ?_, ?_, ?_⟩
  · intro h
    rw [updateOneBackup_unknown b now hm h]
  · intro h
    rw [updateOneBackup_some_eq b now T hm h]
    dsimp only
    split
    next hcond =>
      simp only [Option.isSome_some, true_iff]
      exact hcond
    next hcond =>
      simp only [Option.isSome_none, Bool.false_eq_true, false_iff]
      exact hcond
  · intro al h
    cases hls : b.last_success_at with
    | none =>
        rw [updateOneBackup_unknown b now hm hls] at h
        simp at h
    | some t =>
        rw [updateOneBackup_some_eq b now t hm hls] at h ⊢
        dsimp only at h ⊢
        split at h
        next =>
          injection h with h2
          subst h2
          rfl
        next => simp at h
  · cases hmb : b.is_maintenance with
    | true =>
        rw [updateOneBackup_maintenance b now hmb]
        dsimp only
        rw [updateOneBackup_maintenance b now hmb]
    | false =>
        cases hls : b.last_success_at with
        | none =>
            rw [updateOneBackup_unknown b now hmb hls]
            dsimp only
            rw [updateOneBackup_unknown
              { b with current_status := BStatus.unknown } now hmb hls]
        | some t =>
            rw [updateOneBackup_some_eq b now t hmb hls]
            dsimp only
            rw [updateOneBackup_some_eq
              { b with current_status := clockStatus (now - t) } now t hmb hls]
            dsimp only
            rw [if_neg]
            intro hc
            exact hc.1 rfl
  · intro hls hw h1 h2
    rw [updateOneBackup_some_eq b now T hm hls]
    dsimp only
    rw [clockStatus_alert h1 h2, hw]
    rw [if_pos ⟨by decide, Or.inl rfl⟩]

/-- A warning-status backup 50 hours past its last success. -/
def backupC6 : Backup :=
  { backupC2 with current_status := BStatus.warning }

/-- Witness for C6: the `warning → alert` transition at `T+50h` emits the
one alert of severity `alert` whose message states the 50 elapsed hours. -/
theorem alert_escalation_only_witness :
    (updateOneBackup backupC6 (50 * 3600)).2 = some
      { alert_type := "backup_missing", severity := BStatus.alert,
        client_id := 3, backup_id := 7,
        title := "Sauvegarde manquante: NABO03 - Daily",
        message := "Aucune sauvegarde réussie depuis 50h" } ∧
    (updateOneBackup (updateOneBackup backupC6 (50 * 3600)).1 (50 * 3600)).2 =
      none := by
  have h := alert_escalation_only backupC6 (50 * 3600) 0 rfl
  refine ⟨?_, h.2.2.2.1⟩
  have h5 := h.2.2.2.2 rfl rfl (by norm_num) (by norm_num)
  rw [h5]
  rfl

/-! ### C7 — maintenance suppresses recomputation even past its expiry -/

/-- A backup in maintenance whose `maintenance_until` has long expired and
whose last success is 100 hours old. -/
def backupC7 : Backup :=
  { id := 7, client_id := 3, name := "NABO03 - Daily",
    backup_type := "hyper_backup", source_nas := "NABO03",
    destination_nas := none, source_device := none,
    current_status := BStatus.ok, last_success_at := some 0,
    last_failure_at := none, last_event_at := some 0,
    total_success_count := 5, total_failure_count := 1,
    is_active := true, is_maintenance := true, maintenance_until := some 3600 }

/-- C7 counterexample: `maintenance_until` expired 99 hours before `now`,
yet the loop body leaves the backup untouched — it does not fall through to
the clock rules, which would have yielded `critical`. -/
theorem maintenance_expiry_counterexample :
    backupC7.is_maintenance = true ∧
    backupC7.maintenance_until = some 3600 ∧
    (3600 : Int) < 100 * 3600 ∧
    updateOneBackup backupC7 (100 * 3600) = (backupC7, none) ∧
    clockStatus (100 * 3600 - 0) = BStatus.critical ∧
    backupC7.current_status ≠ BStatus.critical :=
  ⟨rfl, rfl, by norm_num, rfl, by decide, by decide⟩

/-- C7 amended: the status loop skips every `is_maintenance` backup
unconditionally — `maintenance_until` is never consulted, so a backup whose
maintenance has expired is still left unchanged with no alert, exactly like
one whose maintenance lies in the future. -/
theorem maintenance_always_suppresses (b : Backup) (now : Int)
    (h : b.is_maintenance = true) :
    updateOneBackup b now = (b, none) :=
  updateOneBackup_maintenance b now h

/-- Witness for the amended C7 on the expired-maintenance backup. -/
theorem maintenance_always_suppresses_witness :
    updateOneBackup backupC7 (100 * 3600) = (backupC7, none) :=
  maintenance_always_suppresses backupC7 (100 * 3600) rfl

/-! ### C8 — fallback behaviour of the classifier -/

/-- An email whose body contains the failure keyword `échec` and no
success keyword. -/
def emailC8 : EmailMessage :=
  { message_id := "m-c8", subject := "Rapport de sauvegarde",
    sender := "nas@example.org",
    body_text := "échec de la sauvegarde nocturne sur NABO03" }

/-- An email containing both a success keyword (`terminée`) and a failure
keyword (`échec`). -/
def emailC8both : EmailMessage :=
  { message_id := "m-c8b", subject := "Sauvegarde terminée avec échec",
    sender := "nas@example.org", body_text := "rapport" }

/-- C8 counterexample: (1) on unparsable oracle output, `classify` does not
fall back to the keyword heuristic — the `JSONDecodeError` is caught inside
`_parse_json_response`, which returns a parse-error dict with confidence 0
and no status, so an email containing `échec` yields no `failure` status;
(2) even on a raising oracle call, an email containing `échec` together
with a success keyword gets status `success`, not `failure`. -/
theorem classifier_fallback_counterexample :
    strContains (pyLower emailC8.body_text) "échec" = true ∧
    analyze_email emailC8 (OracleResult.unparsable "no json") =
      parse_error_result "no json" ∧
    (analyze_email emailC8 (OracleResult.unparsable "no json")).status = none ∧
    (analyze_email emailC8 (OracleResult.unparsable "no json")).confidence = 0 ∧
    analyze_email emailC8 (OracleResult.unparsable "no json") ≠
      fallback_analysis emailC8 ∧
    (fallback_analysis emailC8).status = some "failure" ∧
    strContains (pyLower emailC8both.subject) "échec" = true ∧
    (analyze_email emailC8both (OracleResult.raised "boom")).status =
      some "success" :=
  ⟨rfl, rfl, rfl, rfl, by decide, rfl, rfl, rfl⟩

/-- C8 amended: `classify` is total (never raises to the caller) and its
confidence is ≤ 30 on both degraded paths, but the deterministic keyword
fallback is reached only when the oracle call raises — there it returns
confidence 30 and status `failure` for an email containing a failure
keyword and no success keyword; unparsable oracle output instead yields
the parse-error result with confidence 0 and no status. -/
theorem classifier_fallback_behavior (email : EmailMessage)
    (msg txt : String) :
    analyze_email email (OracleResult.raised msg) = fallback_analysis email ∧
    (fallback_analysis email).confidence = 30 ∧
    (analyze_email email (OracleResult.raised msg)).confidence ≤ 30 ∧
    (kwHit (pyLower email.subject) (pyLower email.body_text)
        successKeywords = false →
      kwHit (pyLower email.subject) (pyLower email.body_text)
        failureKeywords = true →
      (fallback_analysis email).status = some "failure") ∧
    analyze_email email (OracleResult.unparsable txt) =
      parse_error_result txt ∧
    (parse_error_result txt).confidence = 0 ∧
    (parse_error_result txt).status = none ∧
    (analyze_email email (OracleResult.unparsable txt)).confidence ≤ 30 := by
  refine ⟨rfl, rfl, le_refl 30, ?_, rfl, rfl, rfl,
    show (0 : Nat) ≤ 30 by norm_num⟩
  intro hs hf
  simp only [fallback_analysis, hs, Bool.false_eq_true, if_false, hf, if_true]

/-- Witness for the amended C8 on `emailC8` (failure keyword present,
no success keyword). -/
theorem classifier_fallback_behavior_witness :
    analyze_email emailC8 (OracleResult.raised "boom") =
      fallback_analysis emailC8 ∧
    (fallback_analysis emailC8).status = some "failure" :=
  ⟨(classifier_fallback_behavior emailC8 "boom" "t").1,
   (classifier_fallback_behavior emailC8 "boom" "t").2.2.2.1 (by decide) (by decide)⟩

/-! ### C9 — last_event_at is not monotonic -/

/-- A backup whose `last_event_at` records an event at time 100. -/
def backupC9 : Backup :=
  { id := 7, client_id := 3, name := "NABO03 - Daily",
    backup_type := "hyper_backup", source_nas := "NABO03",
    destination_nas := none, source_device := none,
    current_status := BStatus.ok, last_success_at := some 100,
    last_failure_at := none, last_event_at := some 100,
    total_success_count := 5, total_failure_count := 0,
    is_active := true, is_maintenance := false, maintenance_until := none }

/-- An out-of-order email received at time 50, older than the backup's
recorded `last_event_at = 100`. -/
def emailC9 : EmailRec :=
  { id := 11, message_id := "msg-11", subject := "Hyper Backup - NABO03",
    received_at := some 50 }

/-- Store with `backupC9` and no recorded event for `emailC9`. -/
def dbC9 : Db :=
  { clients := [], backups := [backupC9], events := [],
    nextClientId := 1, nextBackupId := 8, nextEventId := 1 }

/-- A warning signal (does not touch the success/failure aggregates). -/
def sigC9 : Analysis :=
  { is_backup_notification := true, backup_type := some "hyper_backup",
    status := some "warning", source_nas := some "NABO03", confidence := 90 }

/-- The backup after recording the out-of-order event. -/
def backupC9after : Backup :=
  { backupC9 with last_event_at := some 50 }

/-- The store after recording the out-of-order event. -/
def dbC9after : Db :=
  { clients := [], backups := [backupC9after],
    events := [{ id := 1, backup_id := 7, email_id := 11,
                 event_type := "warning", event_date := 50,
                 message := "Hyper Backup - NABO03" }],
    nextClientId := 1, nextBackupId := 8, nextEventId := 2 }

/-- C9 counterexample: recording an event from an email received at time 50
against a backup whose `last_event_at` is 100 drops `last_event_at` to 50 —
the assignment is unconditional, so an out-of-order older event does
decrease it. -/
theorem last_event_at_regression_counterexample :
    backupC9.last_event_at = some 100 ∧
    emailC9.received_at = some 50 ∧
    (50 : Int) < 100 ∧
    create_backup_event dbC9 backupC9 emailC9 sigC9 0 =
      Except.ok (dbC9after, backupC9after,
        { id := 1, backup_id := 7, email_id := 11, event_type := "warning",
          event_date := 50, message := "Hyper Backup - NABO03" }, true) ∧
    backupC9after.last_event_at = some 50 :=
  ⟨rfl, rfl, by norm_num, rfl, rfl⟩

/-- C9 amended: on every newly created event, both recorder paths assign
`last_event_at := email.received_at` unconditionally — the new value
replaces the old one whether it is newer or older; only replaying an
already-recorded event leaves it unchanged. -/
theorem last_event_at_unconditional (db : Db) (b : Backup) (email : EmailRec)
    (a : Analysis) (now : Int)
    (hnew : db.events.filter
      (fun e => e.backup_id == b.id && e.email_id == email.id) = []) :
    (create_backup_event db b email a now).map
        (fun r => (r.2.1.last_event_at, r.2.2.2)) =
      Except.ok (email.received_at, true) ∧
    (∀ event_type received,
      (scheduler_apply_event b event_type received).last_event_at = received) := by
  constructor
  · unfold create_backup_event
    rw [hnew]
    rfl
  · intro event_type received
    rfl

/-- Witness for the amended C9 on the out-of-order store. -/
theorem last_event_at_unconditional_witness :
    (create_backup_event dbC9 backupC9 emailC9 sigC9 0).map
        (fun r => (r.2.1.last_event_at, r.2.2.2)) =
      Except.ok (some 50, true) ∧
    (scheduler_apply_event backupC9 "warning" (some 50)).last_event_at =
      some 50 :=
  ⟨(last_event_at_unconditional dbC9 backupC9 emailC9 sigC9 0 rfl).1,
   (last_event_at_unconditional dbC9 backupC9 emailC9 sigC9 0 rfl).2
     "warning" (some 50)⟩

/-! ### C10 — success keywords are checked before failure keywords -/

/-- C10: in the heuristic fallback, the success-keyword check precedes the
failure-keyword check, so an email containing keywords of both kinds in its
subject or body is classified `success`, never `failure`. -/
theorem success_keywords_checked_first (email : EmailMessage)
    (hs : kwHit (pyLower email.subject) (pyLower email.body_text)
      successKeywords = true)
    (hf : kwHit (pyLower email.subject) (pyLower email.body_text)
      failureKeywords = true) :
    (fallback_analysis email).status = some "success" ∧
    (fallback_analysis email).status ≠ some "failure" := by
  have h : (fallback_analysis email).status = some "success" := by
    simp only [fallback_analysis, hs, if_true]
  refine ⟨h, ?_⟩
  rw [h]
  simp

/-- Witness for C10 on an email whose subject holds both `terminée` and
`échec`. -/
theorem success_keywords_checked_first_witness :
    (fallback_analysis emailC8both).status = some "success" ∧
    (fallback_analysis emailC8both).status ≠ some "failure" :=
  success_keywords_checked_first emailC8both (by decide) (by decide)

end BackupControl
